import Mathlib

/-!
# Verification of `nlpsummarize` (src/nlpsummarize/nlp.py)

Shallow embedding of the `NLPFrame` class and its five public operations
(`get_nlp_summary`, `sentence_stopwords`, `get_part_of_speech`,
`detect_language`, `polarity`) together with the constructor's default-column
resolution, and theorems settling the frozen claims about them.

External collaborators (nltk tokenizers and tagger, the stopword corpus, the
fasttext classifier, pycountry, the two lexicon files, and the boolean results
of `check_nltk_dependencies` / `fasttext_dependencies` from the
`nlpsummarize.dependencies` module, which is not part of the sources) are
modelled as an explicit `Externals` record of black-box functions, exactly as
the spec treats them ("external collaborators consumed as black boxes").
Python exceptions are modelled by `Except PyError`; a `None` return (the soft
dependency-failure path) is `Except.ok none`.
-/

namespace NLPSummarize

/-! ## Python string primitives -/

/-- ASCII whitespace recognised by Python `str.split()` with no arguments
(space, tab, newline, carriage return, vertical tab, form feed; Python also
splits on non-ASCII Unicode whitespace, which does not occur in the inputs
considered here). -/
def pyIsSpace (c : Char) : Bool :=
  c = ' ' || c = '\t' || c = '\n' || c = '\r' || c = '\x0b' || c = '\x0c'

/-- Split a character list at every character satisfying `p`, keeping the
(possibly empty) segments between the delimiters, as `String.split` does. -/
def splitOnPred (p : Char → Bool) : List Char → List (List Char)
  | [] => [[]]
  | c :: cs =>
    if p c then [] :: splitOnPred p cs
    else
      match splitOnPred p cs with
      | [] => [[c]]
      | g :: gs => (c :: g) :: gs

/-- Python `s.split()`: split on runs of whitespace, discarding empty pieces. -/
def pySplit (s : String) : List String :=
  ((splitOnPred pyIsSpace s.data).map (fun cs => String.mk cs)).filter
    (fun t => t ≠ "")

/-- Python regex `\w` on the lowercased ASCII corpus: alphanumeric or
underscore (Python additionally matches non-ASCII word characters). -/
def isWordChar (c : Char) : Bool :=
  c.isAlphanum || c = '_'

/-- A character matched inside the body `[\w-]*` of the polarity token
regex: a word character or a hyphen. -/
def isTokenChar (c : Char) : Bool :=
  isWordChar c || c = '-'

/-- Drop leading and trailing hyphens of a chunk of token characters. -/
def trimHyphens (cs : List Char) : List Char :=
  ((cs.dropWhile (fun c => c = '-')).reverse.dropWhile (fun c => c = '-')).reverse

/-- Python `re.findall(r"\b\w[\w-]*\b", s)`.

Derivation from the regex: a match must start at a word character preceded by
a non-word character (the leading `\b\w`), may greedily consume word
characters and hyphens, and must end at a word boundary, which backtracking
places just after the last word character of the maximal `[\w-]` run (a match
can never end in a hyphen: if the greedy end fails the final `\b`,
backtracking first reaches the last position following a word character).
Hence each maximal run of `[\w-]` characters containing at least one word
character yields exactly one match: the run with its leading and trailing
hyphens removed. Runs consisting only of hyphens yield nothing. -/
def pyFindallWords (s : String) : List String :=
  ((splitOnPred (fun c => !isTokenChar c) s.data).map
      (fun cs => String.mk (trimHyphens cs))).filter (fun t => t ≠ "")

/-- Python `s.lower()` (ASCII case mapping; Python also lowercases non-ASCII
letters). -/
def pyLower (s : String) : String :=
  String.mk (s.data.map Char.toLower)

/-- Python `s[-2:]`: the last two characters (the whole string when shorter). -/
def pyLastTwo (s : String) : String :=
  String.mk (s.data.drop (s.data.length - 2))

/-! ## Data model: `NLPFrame` -/

/-- One named column of the wrapped dataframe. `isObject` records whether the
column has pandas dtype `object`, i.e. is reported by
`select_dtypes(include='object')`; `cells` are its string values (analyzers
only ever read columns of strings). -/
structure PyColumn where
  name : String
  isObject : Bool
  cells : List String
deriving DecidableEq

/-- The `NLPFrame` wrapper state: the columns of the underlying dataframe, in
column order, and the remembered default column `self.column` set by
`__init__`. -/
structure NLPFrame where
  cols : List PyColumn
  column : Option String
deriving DecidableEq

/-- `self.select_dtypes(include='object').columns` followed by the pick of
the first entry (`text_columns[0]`) in `__init__`; `none` when
`text_columns.empty`. -/
def autoPick (cols : List PyColumn) : Option String :=
  match cols.filter (fun col => col.isObject) with
  | [] => none
  | c :: _ => some c.name

/-- The default-column resolution of `NLPFrame.__init__` (nlp.py lines
52–66): `if column and column in self.columns: self.column = column`, else
auto-pick the first object-dtype column, else `None`. A Python `None`
argument is the `none` case; `column and ...` is falsy for the empty
string. -/
def resolveDefaultColumn (cols : List PyColumn) (column : Option String) :
    Option String :=
  match column with
  | some c =>
      if c ≠ "" && cols.any (fun col => col.name = c) then some c
      else autoPick cols
  | none => autoPick cols

/-- `NLPFrame(data, column)`: store the columns and the resolved default. -/
def mkNLPFrame (cols : List PyColumn) (column : Option String) : NLPFrame :=
  ⟨cols, resolveDefaultColumn cols column⟩

/-- Default-column resolution as the spec words it: an explicit, non-empty
name that exists among the columns is used; otherwise the first string-typed
column in column order; otherwise none. -/
def resolveDefaultColumnSpec (cols : List PyColumn) (column : Option String) :
    Option String :=
  match column with
  | some c =>
      if c ≠ "" ∧ (cols.map (fun col => col.name)).contains c then some c
      else (cols.find? (fun col => col.isObject)).map (fun col => col.name)
  | none => (cols.find? (fun col => col.isObject)).map (fun col => col.name)

/-- `self.__getitem__(column)`: the cells of the first column with that name,
or `none` for the `KeyError` case. -/
def NLPFrame.getCol (f : NLPFrame) (c : String) : Option (List String) :=
  (f.cols.find? (fun col => col.name = c)).map (fun col => col.cells)

/-- The shared prologue `column = column if column else self.column` followed
by `if not column: raise ValueError(...)` of every operation: an explicit
non-empty argument wins, else the stored default; `none` is the raise
branch (Python `not column` is true for both `None` and `''`). -/
def effectiveColumn (explicit : String) (stored : Option String) :
    Option String :=
  if explicit ≠ "" then some explicit
  else
    match stored with
    | some s => if s ≠ "" then some s else none
    | none => none

/-! ## Errors and externals -/

/-- The Python exceptions the embedded operations can raise. -/
inductive PyError where
  | valueError (msg : String)
  | attributeError (attr : String)
  | typeError (msg : String)
  | zeroDivisionError
deriving DecidableEq

/-- `ValueError('There is no column with text in the NLPFrame')`. -/
def noColumnMsg : String := "There is no column with text in the NLPFrame"

/-- `ValueError(f"The column {column} doesn't exist in the NLPFrame")`
(message paraphrased without the contraction). -/
def columnMissingMsg (c : String) : String :=
  "The column " ++ c ++ " does not exist in the NLPFrame"

/-- The external collaborators of nlp.py, as black boxes: the nltk data and
functions, the fasttext classifier, pycountry, the lexicon files, and the
boolean outcomes of the two dependency checks. `pos_tag` returns the
universal-tagset tag of each token; as `nltk.pos_tag` does, it returns one
tag per input token (`pos_tag_length`). -/
structure Externals where
  nltk_deps : Bool
  fasttext_deps : Bool
  sent_tokenize : String → List String
  stopwords_english : List String
  word_tokenize : String → List String
  pos_tag : List String → List String
  pos_tag_length : ∀ ws, (pos_tag ws).length = ws.length
  fasttext_predict : String → String
  language_name : String → Option String
  positive_words : List String
  negative_words : List String

/-! ## Frequency analyzer: `sentence_stopwords` (nlp.py lines 112–188) -/

/-- Result row of `sentence_stopwords`: columns `Number of sentences`,
`Stop words`, `Frequency`. -/
structure FreqRow where
  number_of_sentences : Nat
  stop_words : Nat
  frequency : List (Nat × String)
deriving DecidableEq

/-- First-occurrence-ordered distinct tokens, by accumulating the keys
already seen. -/
def distinctKeysAux (seen : List String) : List String → List String
  | [] => []
  | w :: ws =>
    if seen.contains w then distinctKeysAux seen ws
    else w :: distinctKeysAux (w :: seen) ws

/-- First-occurrence-ordered distinct tokens: the key order of
`dict(zip(word_list, wordfreq))` (Python dicts keep insertion order; a
repeated key keeps its first position). -/
def distinctKeys (ws : List String) : List String :=
  distinctKeysAux [] ws

/-- `aux = [(wordfreq_pair[key], key) for key in wordfreq_pair]`: each
distinct token paired with its number of occurrences in the whole token
list (`word_list.count(w)`). -/
def countPairs (ws : List String) : List (Nat × String) :=
  (distinctKeys ws).map (fun w => (ws.count w, w))

/-- Python code-point comparison of strings (`≤`), as a boolean on the
character lists. -/
def charListLe : List Char → List Char → Bool
  | [], _ => true
  | _ :: _, [] => false
  | a :: as, b :: bs =>
      decide (a.toNat < b.toNat) ||
        (decide (a.toNat = b.toNat) && charListLe as bs)

/-- Python `s <= t` on strings. -/
def strLe (s t : String) : Bool := charListLe s.data t.data

/-- Python tuple comparison `(count, token) <= (count', token')`:
lexicographic on the number then the string. -/
def pairLE (p q : Nat × String) : Bool :=
  decide (p.1 < q.1) || (decide (p.1 = q.1) && strLe p.2 q.2)

/-- The ascending tuple order of `aux.sort()` as a relation. -/
def pairLe (p q : Nat × String) : Prop := pairLE p q = true

/-- The descending tuple order (the reverse of `pairLe`). -/
def pairGe (p q : Nat × String) : Prop := pairLE q p = true

instance : DecidableRel pairLe := fun p q => by unfold pairLe; infer_instance

instance : DecidableRel pairGe := fun p q => by unfold pairGe; infer_instance

/-- `aux.sort(); aux.reverse(); freq = aux[0:nof]`: ascending tuple sort,
reversed, truncated to `nof`.

Python `list.sort` is a stable sort, but the elements of `aux` are pairwise
distinct (one pair per distinct token), and `pairLe` is a total,
antisymmetric, transitive order, so the sorted arrangement is unique and any
correct sort computes it; we use insertion sort. -/
def topFreq (ws : List String) (nof : Nat) : List (Nat × String) :=
  ((List.insertionSort pairLe (countPairs ws)).reverse).take nof

/-- The top-frequency list as the spec words it: the (count, token) pairs of
the distinct tokens sorted descending primarily by count, ties broken by
descending lexicographic order of the token, truncated to the first `n`. -/
def specTopFreq (ws : List String) (n : Nat) : List (Nat × String) :=
  (List.insertionSort pairGe (countPairs ws)).take n

/-- `NLPFrame.sentence_stopwords(nof, column)`: dependency check, column
resolution, `'. '`-join of the cells, sentence count via the external
sentence tokenizer, constant stopword count, and the hand-rolled word
frequency top list. -/
def sentence_stopwords (ext : Externals) (f : NLPFrame) (nof : Nat)
    (col : String) : Except PyError (Option FreqRow) :=
  if ext.nltk_deps = false then .ok none
  else
    match effectiveColumn col f.column with
    | none => .error (.valueError noColumnMsg)
    | some c =>
      match f.getCol c with
      | none => .error (.valueError (columnMissingMsg c))
      | some cells =>
        let all_messages := String.intercalate ". " cells
        let number_of_sentences := (ext.sent_tokenize all_messages).length
        let stop := ext.stopwords_english.length
        let word_list := pySplit all_messages
        .ok (some ⟨number_of_sentences, stop, topFreq word_list nof⟩)

/-! ## POS analyzer: `get_part_of_speech` (nlp.py lines 192–275) -/

/-- The tag-abbreviation to category-name table of `get_part_of_speech`
(including the source's spelling `conjuction`), in insertion order. -/
def lookup_dict : List (String × String) :=
  [("ADJ", "adjective"), ("ADP", "adposition"), ("ADV", "adverb"),
   ("CONJ", "conjuction"), ("DET", "article"), ("NOUN", "noun"),
   ("NUM", "numeral"), ("PRT", "particle"), ("PRON", "pronoun"),
   ("VERB", "verb"), (".", "punctuation")]

/-- `if show_only: lookup_dict = {k: v for k, v in lookup_dict.items() if v
in show_only}`: the retained (tag, name) entries, in table order. The empty
list stands for every falsy filter (`None`, `False`, `[]`), which keeps all
11 entries. -/
def retainedCategories (show_only : List String) : List (String × String) :=
  if show_only.isEmpty then lookup_dict
  else lookup_dict.filter (fun kv => show_only.contains kv.2)

/-- Python `round` half-to-even (banker's rounding) of a rational to an
integer. -/
def roundHalfEven (q : ℚ) : ℤ :=
  if q - ⌊q⌋ < 1/2 then ⌊q⌋
  else if 1/2 < q - ⌊q⌋ then ⌊q⌋ + 1
  else if ⌊q⌋ % 2 = 0 then ⌊q⌋ else ⌊q⌋ + 1

/-- Python `round(x, 4)`. -/
def round4 (q : ℚ) : ℚ := (roundHalfEven (q * 10000) : ℚ) / 10000

/-- `NLPFrame.get_part_of_speech(show_only, column)`: dependency check,
column resolution, filter restriction, newline-join, external tokenizer and
universal tagger, then per-retained-category counts each divided by the
total number of tagged tokens and rounded to 4 places. `len(tags)` is zero
exactly when the tokenizer returns no tokens; the division then raises
`ZeroDivisionError` — unless the retained table is empty, in which case the
dict comprehension performs no division at all. -/
def get_part_of_speech (ext : Externals) (f : NLPFrame)
    (show_only : List String) (col : String) :
    Except PyError (Option (List (String × ℚ))) :=
  if ext.nltk_deps = false then .ok none
  else
    match effectiveColumn col f.column with
    | none => .error (.valueError noColumnMsg)
    | some c =>
      match f.getCol c with
      | none => .error (.valueError (columnMissingMsg c))
      | some cells =>
        let retained := retainedCategories show_only
        let tokens := ext.word_tokenize (String.intercalate "\n" cells)
        let tags := ext.pos_tag tokens
        if tags.length = 0 && !retained.isEmpty then .error .zeroDivisionError
        else
          .ok (some (retained.map (fun kv =>
            (kv.2, round4 ((tags.count kv.1 : ℚ) / (tags.length : ℚ))))))

/-! ## Language detector: `detect_language` (nlp.py lines 277–334) -/

/-- `NLPFrame.detect_language(column)`: fasttext dependency check, column
resolution, concatenation with no separator, top fasttext label, last two
characters as alpha-2 code, pycountry name lookup. When `languages.get`
finds no entry it returns Python `None` and the subsequent `.name` access
raises `AttributeError`. -/
def detect_language (ext : Externals) (f : NLPFrame) (col : String) :
    Except PyError (Option String) :=
  if ext.fasttext_deps = false then .ok none
  else
    match effectiveColumn col f.column with
    | none => .error (.valueError noColumnMsg)
    | some c =>
      match f.getCol c with
      | none => .error (.valueError (columnMissingMsg c))
      | some cells =>
        let result := pyLastTwo (ext.fasttext_predict (String.join cells))
        match ext.language_name result with
        | some name => .ok (some name)
        | none => .error (.attributeError "name")

/-! ## Polarity analyzer: `polarity` (nlp.py lines 336–405) -/

/-- Result row of `polarity`: columns `positive_words`, `negative_words`. -/
structure PolarityRow where
  positive_words : Nat
  negative_words : Nat
deriving DecidableEq

/-- One of the two counting loops of `polarity`: the number of tokens, with
multiplicity, that are members of the given lexicon list. -/
def countInLexicon (lex : List String) : List String → Nat
  | [] => 0
  | w :: ws => (if lex.contains w then 1 else 0) + countInLexicon lex ws

/-- The two independent loops of `polarity` over the same token list:
positive count over the positive lexicon, negative count over the negative
lexicon. -/
def polarityCounts (lexP lexN : List String) (ws : List String) : Nat × Nat :=
  (countInLexicon lexP ws, countInLexicon lexN ws)

/-- `NLPFrame.polarity(column)`: dependency check, column resolution,
lexicon loading (the two word lists come from external data files, hence
from `Externals`), `', '`-join, lowercased regex tokenization, and the two
membership-counting loops. -/
def polarity (ext : Externals) (f : NLPFrame) (col : String) :
    Except PyError (Option PolarityRow) :=
  if ext.nltk_deps = false then .ok none
  else
    match effectiveColumn col f.column with
    | none => .error (.valueError noColumnMsg)
    | some c =>
      match f.getCol c with
      | none => .error (.valueError (columnMissingMsg c))
      | some cells =>
        let all_messages := String.intercalate ", " cells
        let word_tokens := pyFindallWords (pyLower all_messages)
        let counts := polarityCounts ext.positive_words ext.negative_words
          word_tokens
        .ok (some ⟨counts.1, counts.2⟩)

/-! ## Summary aggregator: `get_nlp_summary` (nlp.py lines 69–110) -/

/-- Outcome of `get_nlp_summary`: `empty` is the `pd.DataFrame()` returned
from the `except ValueError` handler; `row` is the shape a successful
`pd.concat` of the four one-row results would have. -/
inductive SummaryResult where
  | empty
  | row (language : Option String) (freq : Option FreqRow)
      (pos : Option (List (String × ℚ))) (pol : Option PolarityRow)
deriving DecidableEq

/-- `NLPFrame.get_nlp_summary(column)`: resolve the column (raising
`ValueError` when none resolves), then build the tuple of the four analyzer
results inside a `try` that catches `ValueError` only.

The tuple is evaluated left to right: `self.detect_language(column=column)`
runs first; then the attribute access `self.summary_4` is evaluated — and
`NLPFrame` defines no method `summary_4` (the frequency analyzer is named
`sentence_stopwords`), so it raises `AttributeError`, which the
`except ValueError` handler does not catch. (Were a column of the frame
itself named `summary_4`, pandas attribute lookup would instead yield that
column and the call would raise `TypeError`; either way a non-`ValueError`
exception escapes. We assume no column carries that name.) Consequently the
`row` outcome is unreachable: the operation either raises, or returns
`empty` when `detect_language` raised `ValueError`. -/
def get_nlp_summary (ext : Externals) (f : NLPFrame) (col : String) :
    Except PyError SummaryResult :=
  match effectiveColumn col f.column with
  | none => .error (.valueError noColumnMsg)
  | some c =>
    match detect_language ext f c with
    | .error (.valueError _) => .ok .empty
    | .error e => .error e
    | .ok _ => .error (.attributeError "summary_4")

/-! ## Concrete fixtures for witnesses and counterexamples -/

/-- A concrete environment with every dependency available: the sentence
tokenizer returns one sentence, the word tokenizer is whitespace splitting,
the tagger tags every token `NOUN`, fasttext predicts English, the stopword
corpus has three entries and the lexicons one word each. -/
def extDefault : Externals where
  nltk_deps := true
  fasttext_deps := true
  sent_tokenize := fun s => [s]
  stopwords_english := ["a", "the", "is"]
  word_tokenize := pySplit
  pos_tag := fun ws => ws.map (fun _ => "NOUN")
  pos_tag_length := fun ws => ws.length_map _
  fasttext_predict := fun _ => "__label__en"
  language_name := fun c => if c = "en" then some "English" else none
  positive_words := ["good"]
  negative_words := ["bad"]

/-- `extDefault` with both dependency checks failing. -/
def extNoDeps : Externals :=
  { extDefault with nltk_deps := false, fasttext_deps := false }

/-- A frame with one text column `text_col` holding `["a a b", "b c"]`;
auto-detection stores `text_col`. -/
def frameText : NLPFrame :=
  mkNLPFrame [⟨"text_col", true, ["a a b", "b c"]⟩] none

/-- A second corpus: one text column `t` holding `["x"]`. -/
def frameX : NLPFrame := mkNLPFrame [⟨"t", true, ["x"]⟩] none

/-- A frame whose only column is numeric: auto-detection finds no text
column and stores `none`. -/
def frameNoText : NLPFrame := mkNLPFrame [⟨"nums", false, ["1", "2"]⟩] none

/-- A frame whose text column holds a single empty cell, so the corpus
tokenizes to no tokens. -/
def frameEmptyCell : NLPFrame := mkNLPFrame [⟨"text_col", true, [""]⟩] none

/-- The row `get_part_of_speech` produces on `frameX` with filter
`["noun"]` in the `extDefault` environment, written as the analyzer builds
it. -/
def posRowX : List (String × ℚ) :=
  (retainedCategories ["noun"]).map (fun kv =>
    (kv.2, round4
      (((extDefault.pos_tag (extDefault.word_tokenize
          (String.intercalate "\n" ["x"]))).count kv.1 : ℚ) /
        ((extDefault.pos_tag (extDefault.word_tokenize
          (String.intercalate "\n" ["x"]))).length : ℚ))))

/-! ## Claim C1 -/

/-- Claim C1, counterexample: on a frame whose stored default column is
`none` and with no explicit name, `get_nlp_summary` raises
`ValueError` — it does not return an empty result table as the claim
states. -/
theorem get_nlp_summary_missing_column_counterexample :
    get_nlp_summary extDefault frameNoText "" =
      .error (.valueError noColumnMsg) ∧
    get_nlp_summary extDefault frameNoText "" ≠ .ok .empty := by
  have e : get_nlp_summary extDefault frameNoText "" =
      .error (.valueError noColumnMsg) := rfl
  refine ⟨e, fun h => ?_⟩
  rw [e] at h
  exact Except.noConfusion h

/-- Claim C1, amended: when the column cannot be resolved (no explicit name
and the stored default is `none`), `get_nlp_summary` raises the same
`ValueError` the per-analyzer operations raise in that situation; the
report-and-return-empty path exists only for a resolved name that is not a
column of the table. -/
theorem get_nlp_summary_missing_column_raises (ext : Externals)
    (f : NLPFrame) (col : String) (nof : Nat)
    (h : effectiveColumn col f.column = none) :
    get_nlp_summary ext f col = .error (.valueError noColumnMsg) ∧
    (ext.nltk_deps = true →
      sentence_stopwords ext f nof col = .error (.valueError noColumnMsg)) := by
  refine ⟨?_, fun hd => ?_⟩
  · unfold get_nlp_summary
    rw [h]
  · unfold sentence_stopwords
    rw [hd, h]
    rfl

/-- Claim C1, witness for the amended theorem at the concrete frame with no
text column. -/
theorem get_nlp_summary_missing_column_raises_witness :
    get_nlp_summary extDefault frameNoText "" =
      .error (.valueError noColumnMsg) ∧
    (extDefault.nltk_deps = true →
      sentence_stopwords extDefault frameNoText 3 "" =
        .error (.valueError noColumnMsg)) :=
  get_nlp_summary_missing_column_raises extDefault frameNoText "" 3 (by decide)

/-! ## Claim C2 -/

/-- Claim C2, code bug: on a frame with a resolvable text column and every
dependency available, `get_nlp_summary` does not return the concatenation of
the four analyzer rows; after `detect_language` succeeds, the attribute
access `self.summary_4` raises `AttributeError` (the frequency analyzer is
named `sentence_stopwords`; no method `summary_4` exists), and the
`except ValueError` handler does not catch it. -/
theorem get_nlp_summary_calls_missing_summary_4 :
    get_nlp_summary extDefault frameText "" =
      .error (.attributeError "summary_4") := by
  rfl

/-! ## Claim C3 -/

/-- Claim C3, counterexample: joining the cells `["a a b", "b c"]` with the
`". "` separator yields the corpus `"a a b. b c"`, whose whitespace tokens
are `a, a, b., b, c` — the separator glues a period onto the final token of
the first cell, so the token `"b"` occurs once, not twice, and the top-2
list of the analyzer is not `[(2, "b"), (2, "a")]`. -/
theorem sentence_stopwords_counts_counterexample :
    (pySplit (String.intercalate ". " ["a a b", "b c"])).count "b" = 1 ∧
    topFreq (pySplit (String.intercalate ". " ["a a b", "b c"])) 2 ≠
      [(2, "b"), (2, "a")] := by
  decide

/-- Claim C3, amended: for the input cells `["a a b", "b c"]` joined with
the `". "` separator the token counts are `a:2, b.:1, b:1, c:1`, and
requesting the top 2 frequent words returns exactly `[(2, "a"), (1, "c")]`
(shown through the full analyzer on a frame holding those cells; the
sentence count 1 and stopword count 3 reflect the concrete external
tokenizer and stopword corpus of the fixture). -/
theorem sentence_stopwords_counts_amended :
    sentence_stopwords extDefault frameText 2 "" =
      .ok (some ⟨1, 3, [(2, "a"), (1, "c")]⟩) ∧
    (pySplit (String.intercalate ". " ["a a b", "b c"])).count "a" = 2 ∧
    (pySplit (String.intercalate ". " ["a a b", "b c"])).count "b." = 1 ∧
    (pySplit (String.intercalate ". " ["a a b", "b c"])).count "b" = 1 ∧
    (pySplit (String.intercalate ". " ["a a b", "b c"])).count "c" = 1 := by
  refine ⟨rfl, ?_, ?_, ?_, ?_⟩ <;> decide

/-! ## Order lemmas for the frequency sort -/

lemma char_toNat_inj {a b : Char} (h : a.toNat = b.toNat) : a = b := by
  have h2 : Char.ofNat a.toNat = Char.ofNat b.toNat := by rw [h]
  rwa [Char.ofNat_toNat, Char.ofNat_toNat] at h2

lemma charListLe_total : ∀ as bs,
    charListLe as bs = true ∨ charListLe bs as = true
  | [], _ => Or.inl rfl
  | _ :: _, [] => Or.inr rfl
  | a :: as, b :: bs => by
    rcases Nat.lt_trichotomy a.toNat b.toNat with h | h | h
    · exact Or.inl (by simp [charListLe, h])
    · rcases charListLe_total as bs with ih | ih
      · exact Or.inl (by simp [charListLe, h, ih])
      · exact Or.inr (by simp [charListLe, h.symm, ih])
    · exact Or.inr (by simp [charListLe, h])

lemma charListLe_trans : ∀ {as bs cs},
    charListLe as bs = true → charListLe bs cs = true →
      charListLe as cs = true
  | [], _, _, _, _ => rfl
  | _ :: _, [], _, h, _ => Bool.noConfusion h
  | _ :: _, _ :: _, [], _, h => Bool.noConfusion h
  | a :: as, b :: bs, c :: cs, h1, h2 => by
    simp only [charListLe, Bool.or_eq_true, Bool.and_eq_true,
      decide_eq_true_eq] at h1 h2 ⊢
    rcases h1 with h1 | ⟨h1e, h1r⟩ <;> rcases h2 with h2 | ⟨h2e, h2r⟩
    · exact Or.inl (by omega)
    · exact Or.inl (by omega)
    · exact Or.inl (by omega)
    · exact Or.inr ⟨by omega, charListLe_trans h1r h2r⟩

lemma charListLe_antisymm : ∀ {as bs},
    charListLe as bs = true → charListLe bs as = true → as = bs
  | [], [], _, _ => rfl
  | [], _ :: _, _, h => Bool.noConfusion h
  | _ :: _, [], h, _ => Bool.noConfusion h
  | a :: as, b :: bs, h1, h2 => by
    simp only [charListLe, Bool.or_eq_true, Bool.and_eq_true,
      decide_eq_true_eq] at h1 h2
    rcases h1 with h1 | ⟨h1e, h1r⟩ <;> rcases h2 with h2 | ⟨h2e, h2r⟩ <;>
      try omega
    rw [char_toNat_inj h1e, charListLe_antisymm h1r h2r]

lemma pairLE_total (p q : Nat × String) :
    pairLE p q = true ∨ pairLE q p = true := by
  simp only [pairLE, strLe, Bool.or_eq_true, Bool.and_eq_true,
    decide_eq_true_eq]
  rcases Nat.lt_trichotomy p.1 q.1 with h | h | h
  · exact Or.inl (Or.inl h)
  · rcases charListLe_total p.2.data q.2.data with hc | hc
    · exact Or.inl (Or.inr ⟨h, hc⟩)
    · exact Or.inr (Or.inr ⟨h.symm, hc⟩)
  · exact Or.inr (Or.inl h)

lemma pairLE_trans {p q r : Nat × String} (h1 : pairLE p q = true)
    (h2 : pairLE q r = true) : pairLE p r = true := by
  simp only [pairLE, strLe, Bool.or_eq_true, Bool.and_eq_true,
    decide_eq_true_eq] at h1 h2 ⊢
  rcases h1 with h1 | ⟨h1e, h1r⟩ <;> rcases h2 with h2 | ⟨h2e, h2r⟩
  · exact Or.inl (by omega)
  · exact Or.inl (by omega)
  · exact Or.inl (by omega)
  · exact Or.inr ⟨by omega, charListLe_trans h1r h2r⟩

lemma pairLE_antisymm {p q : Nat × String} (h1 : pairLE p q = true)
    (h2 : pairLE q p = true) : p = q := by
  obtain ⟨pn, ps⟩ := p
  obtain ⟨qn, qs⟩ := q
  simp only [pairLE, strLe, Bool.or_eq_true, Bool.and_eq_true,
    decide_eq_true_eq] at h1 h2
  have hn : pn = qn := by rcases h1 with h1 | ⟨h1e, _⟩ <;>
    rcases h2 with h2 | ⟨h2e, _⟩ <;> omega
  subst hn
  rcases h1 with h1 | ⟨_, h1r⟩
  · omega
  · rcases h2 with h2 | ⟨_, h2r⟩
    · omega
    · have hs : ps.data = qs.data := charListLe_antisymm h1r h2r
      have hps : ps = qs := by
        cases ps; cases qs; exact congrArg String.mk hs
      rw [hps]

instance : IsTotal (Nat × String) pairLe := ⟨pairLE_total⟩

instance : IsTrans (Nat × String) pairLe :=
  ⟨fun _ _ _ h1 h2 => pairLE_trans h1 h2⟩

instance : IsTotal (Nat × String) pairGe :=
  ⟨fun p q => pairLE_total q p⟩

instance : IsTrans (Nat × String) pairGe :=
  ⟨fun _ _ _ h1 h2 => pairLE_trans h2 h1⟩

instance : IsAntisymm (Nat × String) pairGe :=
  ⟨fun _ _ h1 h2 => pairLE_antisymm h2 h1⟩

lemma reverse_sortAsc_eq_sortDesc (l : List (Nat × String)) :
    (List.insertionSort pairLe l).reverse = List.insertionSort pairGe l := by
  apply List.eq_of_perm_of_sorted (r := pairGe)
  · exact ((List.insertionSort pairLe l).reverse_perm.trans
      (List.perm_insertionSort pairLe l)).trans
      (List.perm_insertionSort pairGe l).symm
  · rw [List.Sorted, List.pairwise_reverse]
    exact List.sorted_insertionSort pairLe l
  · exact List.sorted_insertionSort pairGe l

/-! ## Claim C4 -/

/-- Claim C4: for every input corpus, the reported top-frequency list is the
(count, token) pairs of the distinct tokens sorted descending primarily by
count, with ties broken by descending lexicographic order of the token,
truncated to the first `n` pairs. -/
theorem topFreq_eq_specTopFreq (ws : List String) (n : Nat) :
    topFreq ws n = specTopFreq ws n := by
  unfold topFreq specTopFreq
  rw [reverse_sortAsc_eq_sortDesc]

/-! ## Claim C5 -/

lemma autoPick_eq_find (cols : List PyColumn) :
    autoPick cols =
      (cols.find? (fun col => col.isObject)).map (fun col => col.name) := by
  induction cols with
  | nil => rfl
  | cons c cs ih =>
    by_cases h : c.isObject
    · simp [autoPick, List.filter_cons, h, List.find?_cons_of_pos]
    · rw [autoPick, List.filter_cons, if_neg (by simp [h]),
        List.find?_cons_of_neg _ (by simp [h]), ← autoPick, ih]

/-- Claim C5: at construction, the stored default column is the explicit
name when it is non-empty and exists among the columns; otherwise the first
string-typed (object-dtype) column in column order; otherwise none. -/
theorem mkNLPFrame_column_spec (cols : List PyColumn)
    (column : Option String) :
    (mkNLPFrame cols column).column = resolveDefaultColumnSpec cols column := by
  show resolveDefaultColumn cols column = resolveDefaultColumnSpec cols column
  unfold resolveDefaultColumn resolveDefaultColumnSpec
  cases column with
  | none => exact autoPick_eq_find cols
  | some c =>
    refine if_congr ?_ rfl (autoPick_eq_find cols)
    simp [List.any_eq_true, List.mem_map]

/-! ## Claim C6 -/

lemma sentence_stopwords_stop_words {ext : Externals} {f : NLPFrame}
    {nof : Nat} {col : String} {r : FreqRow}
    (h : sentence_stopwords ext f nof col = .ok (some r)) :
    r.stop_words = ext.stopwords_english.length := by
  unfold sentence_stopwords at h
  split at h
  · exact absurd h (by simp)
  · split at h
    · exact absurd h (by simp)
    · split at h
      · exact absurd h (by simp)
      · simp only [Except.ok.injEq, Option.some.injEq] at h
        subst h
        rfl

/-- Claim C6: for any two input corpora (any two frames, columns and top-N
arguments) analyzed in the same environment, the frequency analyzer reports
the same stopword count, a constant equal to the size of the fixed English
stopword list and independent of the corpus content. -/
theorem stopword_count_constant (ext : Externals) (f₁ f₂ : NLPFrame)
    (n₁ n₂ : Nat) (c₁ c₂ : String) (r₁ r₂ : FreqRow)
    (h₁ : sentence_stopwords ext f₁ n₁ c₁ = .ok (some r₁))
    (h₂ : sentence_stopwords ext f₂ n₂ c₂ = .ok (some r₂)) :
    r₁.stop_words = ext.stopwords_english.length ∧
    r₁.stop_words = r₂.stop_words := by
  have e₁ := sentence_stopwords_stop_words h₁
  have e₂ := sentence_stopwords_stop_words h₂
  exact ⟨e₁, e₁.trans e₂.symm⟩

/-- Claim C6, witness: two different corpora (`frameText` and `frameX`) with
different top-N arguments yield the same stopword count. -/
theorem stopword_count_constant_witness :
    (⟨1, 3, [(2, "a"), (1, "c")]⟩ : FreqRow).stop_words =
      extDefault.stopwords_english.length ∧
    (⟨1, 3, [(2, "a"), (1, "c")]⟩ : FreqRow).stop_words =
      (⟨1, 3, [(1, "x")]⟩ : FreqRow).stop_words :=
  stopword_count_constant extDefault frameText frameX 2 3 "" ""
    ⟨1, 3, [(2, "a"), (1, "c")]⟩ ⟨1, 3, [(1, "x")]⟩ rfl rfl

/-! ## Claim C7 -/

lemma roundHalfEven_nonneg {q : ℚ} (h : 0 ≤ q) : 0 ≤ roundHalfEven q := by
  have hf : 0 ≤ ⌊q⌋ := Int.floor_nonneg.mpr h
  unfold roundHalfEven
  split
  · exact hf
  · split
    · omega
    · split <;> omega

lemma roundHalfEven_le {q : ℚ} {n : ℤ} (h : q ≤ n) : roundHalfEven q ≤ n := by
  have hf : ⌊q⌋ ≤ n := by
    have h2 := Int.floor_le_floor h
    rwa [Int.floor_intCast] at h2
  have hfl : (⌊q⌋ : ℚ) ≤ q := Int.floor_le q
  unfold roundHalfEven
  split
  · exact hf
  · rename_i h1
    have hne : ⌊q⌋ ≠ n := by
      intro he
      apply h1
      have hq : q - ⌊q⌋ ≤ 0 := by
        rw [he]
        linarith
      linarith
    split
    · omega
    · split <;> omega

lemma round4_mem_unit {q : ℚ} (h0 : 0 ≤ q) (h1 : q ≤ 1) :
    0 ≤ round4 q ∧ round4 q ≤ 1 := by
  unfold round4
  constructor
  · apply div_nonneg _ (by norm_num)
    exact_mod_cast roundHalfEven_nonneg (by positivity)
  · rw [div_le_one (by norm_num)]
    have h2 : roundHalfEven (q * 10000) ≤ (10000 : ℤ) :=
      roundHalfEven_le (by push_cast; linarith)
    exact_mod_cast h2

lemma round4_div_count_mem_unit (k : String) (tags : List String) :
    0 ≤ round4 ((tags.count k : ℚ) / (tags.length : ℚ)) ∧
    round4 ((tags.count k : ℚ) / (tags.length : ℚ)) ≤ 1 := by
  rcases Nat.eq_zero_or_pos tags.length with hl | hl
  · rw [hl]
    have hz : ((tags.count k : ℚ) / ((0 : Nat) : ℚ)) = 0 := by
      norm_num
    rw [hz]
    exact round4_mem_unit le_rfl (by norm_num)
  · apply round4_mem_unit
    · positivity
    · rw [div_le_one (by positivity)]
      exact_mod_cast List.count_le_length k tags

/-- Claim C7: whenever the POS analyzer returns a row, that row carries, for
each retained category in table order, the count of tokens tagged with that
category divided by the total number of tagged tokens of the whole corpus
(not by the retained subset's total), rounded to 4 decimal places, and every
reported proportion lies in `[0, 1]` (the rows of a filtered call need not
sum to 1, as the retained subset need not exhaust the tags). -/
theorem get_part_of_speech_proportions (ext : Externals) (f : NLPFrame)
    (show_only : List String) (col : String) (row : List (String × ℚ))
    (h : get_part_of_speech ext f show_only col = .ok (some row)) :
    ∃ c cells,
      effectiveColumn col f.column = some c ∧
      f.getCol c = some cells ∧
      row = (retainedCategories show_only).map (fun kv =>
        (kv.2, round4
          (((ext.pos_tag (ext.word_tokenize
              (String.intercalate "\n" cells))).count kv.1 : ℚ) /
            ((ext.pos_tag (ext.word_tokenize
              (String.intercalate "\n" cells))).length : ℚ)))) ∧
      ∀ p ∈ row, 0 ≤ p.2 ∧ p.2 ≤ 1 := by
  unfold get_part_of_speech at h
  split at h
  · exact absurd h (by simp)
  · split at h
    · exact absurd h (by simp)
    · rename_i c hc
      split at h
      · exact absurd h (by simp)
      · rename_i cells hcells
        dsimp only at h
        split at h
        · exact absurd h (by simp)
        · simp only [Except.ok.injEq, Option.some.injEq] at h
          subst h
          refine ⟨c, cells, hc, hcells, rfl, ?_⟩
          intro p hp
          simp only [List.mem_map] at hp
          obtain ⟨kv, _, rfl⟩ := hp
          exact round4_div_count_mem_unit kv.1 _

/-- Claim C7, witness at the one-token frame `frameX` with filter
`["noun"]`. -/
theorem get_part_of_speech_proportions_witness :
    ∃ c cells,
      effectiveColumn "" frameX.column = some c ∧
      frameX.getCol c = some cells ∧
      posRowX = (retainedCategories ["noun"]).map (fun kv =>
        (kv.2, round4
          (((extDefault.pos_tag (extDefault.word_tokenize
              (String.intercalate "\n" cells))).count kv.1 : ℚ) /
            ((extDefault.pos_tag (extDefault.word_tokenize
              (String.intercalate "\n" cells))).length : ℚ)))) ∧
      ∀ p ∈ posRowX, 0 ≤ p.2 ∧ p.2 ≤ 1 :=
  get_part_of_speech_proportions extDefault frameX ["noun"] "" posRowX rfl

/-! ## Claim C8 -/

lemma countInLexicon_eq_filter_length (lex ws : List String) :
    countInLexicon lex ws = (ws.filter (fun w => lex.contains w)).length := by
  induction ws with
  | nil => rfl
  | cons w ws ih =>
    by_cases h : w ∈ lex <;>
      simp [countInLexicon, List.filter_cons, h, ih, Nat.add_comm]

/-- Claim C8: the polarity analyzer computes the positive and the negative
count independently over the same token sequence — each count is the number
of tokens (with multiplicity) that are members of its lexicon — and a token
present in both lexicons increments both counts. -/
theorem polarity_counts_independent (lexP lexN : List String) (t : String)
    (ws : List String) (hp : lexP.contains t = true)
    (hn : lexN.contains t = true) :
    (polarityCounts lexP lexN (t :: ws)).1 =
      (polarityCounts lexP lexN ws).1 + 1 ∧
    (polarityCounts lexP lexN (t :: ws)).2 =
      (polarityCounts lexP lexN ws).2 + 1 ∧
    (polarityCounts lexP lexN ws).1 =
      (ws.filter (fun w => lexP.contains w)).length ∧
    (polarityCounts lexP lexN ws).2 =
      (ws.filter (fun w => lexN.contains w)).length := by
  have hp2 : t ∈ lexP := by simpa using hp
  have hn2 : t ∈ lexN := by simpa using hn
  refine ⟨?_, ?_, countInLexicon_eq_filter_length lexP ws,
    countInLexicon_eq_filter_length lexN ws⟩
  · simp [polarityCounts, countInLexicon, hp2, Nat.add_comm]
  · simp [polarityCounts, countInLexicon, hn2, Nat.add_comm]

/-- Claim C8, witness: the token `"odd"` sits in both lexicons and
increments both counts. -/
theorem polarity_counts_independent_witness :
    (polarityCounts ["good", "odd"] ["bad", "odd"]
        ("odd" :: ["good", "x"])).1 =
      (polarityCounts ["good", "odd"] ["bad", "odd"] ["good", "x"]).1 + 1 ∧
    (polarityCounts ["good", "odd"] ["bad", "odd"]
        ("odd" :: ["good", "x"])).2 =
      (polarityCounts ["good", "odd"] ["bad", "odd"] ["good", "x"]).2 + 1 ∧
    (polarityCounts ["good", "odd"] ["bad", "odd"] ["good", "x"]).1 =
      (["good", "x"].filter (fun w => ["good", "odd"].contains w)).length ∧
    (polarityCounts ["good", "odd"] ["bad", "odd"] ["good", "x"]).2 =
      (["good", "x"].filter (fun w => ["bad", "odd"].contains w)).length :=
  polarity_counts_independent ["good", "odd"] ["bad", "odd"] "odd"
    ["good", "x"] rfl rfl

/-! ## Claim C9 -/

/-- Claim C9: in every per-analyzer operation the dependency check runs
before any column validation — when it fails, the operation returns the null
result for every frame and every column argument, even one naming no column
of the frame, and no error is raised. -/
theorem dependency_check_precedes_column_validation (ext : Externals)
    (f : NLPFrame) (nof : Nat) (show_only : List String) (col : String)
    (hn : ext.nltk_deps = false) (hf : ext.fasttext_deps = false) :
    sentence_stopwords ext f nof col = .ok none ∧
    get_part_of_speech ext f show_only col = .ok none ∧
    detect_language ext f col = .ok none ∧
    polarity ext f col = .ok none := by
  unfold sentence_stopwords get_part_of_speech detect_language polarity
  rw [hn, hf]
  exact ⟨rfl, rfl, rfl, rfl⟩

/-- Claim C9, witness: with both dependency checks failing, all four
operations return the null result on a column name (`"ghost"`) that does not
exist in the frame. -/
theorem dependency_check_precedes_column_validation_witness :
    sentence_stopwords extNoDeps frameText 3 "ghost" = .ok none ∧
    get_part_of_speech extNoDeps frameText ["noun"] "ghost" = .ok none ∧
    detect_language extNoDeps frameText "ghost" = .ok none ∧
    polarity extNoDeps frameText "ghost" = .ok none :=
  dependency_check_precedes_column_validation extNoDeps frameText 3
    ["noun"] "ghost" rfl rfl

/-! ## Claim C10 -/

/-- Claim C10: the POS proportion computation divides by the total number of
tagged tokens with no guard: when the concatenated column text tokenizes to
at least one token every division is well-defined and a row is returned (for
any filter), and when it tokenizes to no tokens the division-by-zero branch
is reached under the default filter and `ZeroDivisionError` is raised. -/
theorem pos_zero_token_division (ext : Externals) (f : NLPFrame)
    (col c : String) (cells : List String) (show_only : List String)
    (hdeps : ext.nltk_deps = true)
    (hc : effectiveColumn col f.column = some c)
    (hcol : f.getCol c = some cells) :
    (ext.word_tokenize (String.intercalate "\n" cells) ≠ [] →
      ∃ row, get_part_of_speech ext f show_only col = .ok (some row)) ∧
    (ext.word_tokenize (String.intercalate "\n" cells) = [] →
      get_part_of_speech ext f ["adjective", "noun", "verb"] col =
        .error .zeroDivisionError) := by
  constructor
  · intro hne
    have hlen :
        (ext.pos_tag (ext.word_tokenize
          (String.intercalate "\n" cells))).length ≠ 0 := by
      rw [ext.pos_tag_length]
      exact fun h0 => hne (List.length_eq_zero.mp h0)
    refine ⟨(retainedCategories show_only).map (fun kv =>
      (kv.2, round4
        (((ext.pos_tag (ext.word_tokenize
            (String.intercalate "\n" cells))).count kv.1 : ℚ) /
          ((ext.pos_tag (ext.word_tokenize
            (String.intercalate "\n" cells))).length : ℚ)))), ?_⟩
    simp [get_part_of_speech, hdeps, hc, hcol, hlen]
  · intro hex
    have hlen :
        (ext.pos_tag (ext.word_tokenize
          (String.intercalate "\n" cells))).length = 0 := by
      rw [ext.pos_tag_length, hex]
      rfl
    have hret : ¬(retainedCategories ["adjective", "noun", "verb"]).isEmpty
        = true := by decide
    simp [get_part_of_speech, hdeps, hc, hcol, hlen, hret]

/-- Claim C10, witness: on the frame whose single cell is the empty string,
whitespace tokenization yields no tokens and the default-filter call raises
`ZeroDivisionError`. -/
theorem pos_zero_token_division_witness :
    (extDefault.word_tokenize (String.intercalate "\n" [""]) ≠ [] →
      ∃ row, get_part_of_speech extDefault frameEmptyCell ["noun"] "" =
        .ok (some row)) ∧
    (extDefault.word_tokenize (String.intercalate "\n" [""]) = [] →
      get_part_of_speech extDefault frameEmptyCell
        ["adjective", "noun", "verb"] "" = .error .zeroDivisionError) :=
  pos_zero_token_division extDefault frameEmptyCell "" "text_col" [""]
    ["noun"] rfl rfl rfl

end NLPSummarize
